import Mathlib

/-!
Verification of the drmdmp64_mass firmware core against its design
specification.  The definitions below are shallow embeddings of the C code in
src/src/joybus.c (wire codec and SI EEPROM protocol) and of the virtual
FAT16 disk construction (boot sector, FAT synthesis, root directory and the
sector dispatcher of the mass-storage callbacks).  Machine integers are
modelled as Nat with explicit reductions modulo 2^8 / 2^32 exactly where the
C performs a narrowing cast or where unsigned wraparound occurs.
-/

namespace DrmDmp64

/-! ## WireCodec: convertToPio from src/src/joybus.c -/

/-- One byte of the command as encoded by the inner j loop of convertToPio:
for each of the 8 bits (MSB first, the C tests command[i] & (0x80 >> j)) the
slot gains the fixed "one" marker at bit 2*(8*ip+j)+1 plus the data bit at
2*(8*ip+j), where ip = i % 2 selects which half of the 32-bit slot the byte
occupies.  The additions land on pairwise distinct bit positions, so the
accumulated value equals the C bitwise result. -/
def byteSlots (b ip : Nat) : Nat :=
  (List.range 8).foldl
    (fun acc j =>
      acc + 2 ^ (2 * (8 * ip + j) + 1)
          + (if b.testBit (7 - j) then 2 ^ (2 * (8 * ip + j)) else 0)) 0

/-- Body of the outer i loop of convertToPio: result[i / 2] += the encoding
of command byte i. -/
def fillSlot (command : List Nat) (r : List Nat) (i : Nat) : List Nat :=
  r.set (i / 2) (r.getD (i / 2) 0 + byteSlots (command.getD i 0) (i % 2))

/-- convertToPio from src/src/joybus.c.  Returns (result, resultLen): a
zero-length command produces no output (resultLen 0); otherwise len/2 + 1
slots are zeroed, each command byte i is added into slot i/2, and the end
marker 3 << (2*(8*(len%2))) is added into slot len/2. -/
def convertToPio (command : List Nat) : List Nat × Nat :=
  if command.length = 0 then ([], 0)
  else
    let len := command.length
    let resultLen := len / 2 + 1
    let filled := (List.range len).foldl (fillSlot command) (List.replicate resultLen 0)
    (filled.set (len / 2) (filled.getD (len / 2) 0 + 3 * 2 ^ (2 * (8 * (len % 2)))), resultLen)

theorem fillSlot_foldl_length (command : List Nat) (l : List Nat) (init : List Nat) :
    (l.foldl (fillSlot command) init).length = init.length := by
  induction l generalizing init with
  | nil => rfl
  | cons i t ih => rw [List.foldl_cons, ih, fillSlot, List.length_set]

theorem fillSlot_foldl_getD (command : List Nat) (l : List Nat) (init : List Nat)
    (k : Nat) (hk : ∀ i ∈ l, i / 2 ≠ k) :
    (l.foldl (fillSlot command) init).getD k 0 = init.getD k 0 := by
  induction l generalizing init with
  | nil => rfl
  | cons i t ih =>
    rw [List.foldl_cons, ih _ (fun j hj => hk j (List.mem_cons_of_mem i hj))]
    rw [fillSlot, List.getD_eq_getElem?_getD, List.getD_eq_getElem?_getD,
      List.getElem?_set_ne (hk i (List.mem_cons_self i t)),
      ← List.getD_eq_getElem?_getD]

theorem byteSlots_zero_lt (b : Nat) : byteSlots b 0 < 65536 := by
  have h8 : List.range 8 = [0, 1, 2, 3, 4, 5, 6, 7] := rfl
  rw [byteSlots, h8]
  simp only [List.foldl_cons, List.foldl_nil]
  split_ifs <;> decide

theorem foldl_range_succ {α : Type} (f : α → Nat → α) (n : Nat) (init : α) :
    (List.range (n + 1)).foldl f init = f ((List.range n).foldl f init) n := by
  rw [List.range_succ, List.foldl_append, List.foldl_cons, List.foldl_nil]

theorem replicate_getD (n k : Nat) (hk : k < n) : (List.replicate n (0 : Nat)).getD k 0 = 0 := by
  simp [List.getD_eq_getElem?_getD, List.getElem?_replicate, hk]

/-- The value of the last slot, index len/2, after the data loop of
convertToPio and before the end marker is added: for an even-length command
the last slot carries no data at all; for an odd length it carries exactly
the low-half encoding of the final byte. -/
theorem filled_getD_last (command : List Nat) (h : command.length ≠ 0) :
    ((List.range command.length).foldl (fillSlot command)
        (List.replicate (command.length / 2 + 1) 0)).getD (command.length / 2) 0
      = if command.length % 2 = 1
        then byteSlots (command.getD (command.length - 1) 0) 0 else 0 := by
  rcases Nat.even_or_odd command.length with he | ho
  · have he2 : command.length % 2 = 0 := Nat.even_iff.mp he
    rw [if_neg (by omega), fillSlot_foldl_getD _ _ _ _ (fun i hi => by
      have : i < command.length := List.mem_range.mp hi
      omega)]
    exact replicate_getD _ _ (by omega)
  · have ho2 : command.length % 2 = 1 := Nat.odd_iff.mp ho
    obtain ⟨m, hm⟩ : ∃ m, command.length = m + 1 := ⟨command.length - 1, by omega⟩
    rw [if_pos ho2, hm, foldl_range_succ]
    have hm2 : m % 2 = 0 := by omega
    have hdiv : (m + 1) / 2 = m / 2 := by omega
    have hpre : ((List.range m).foldl (fillSlot command)
        (List.replicate (m / 2 + 1) 0)).getD (m / 2) 0 = 0 := by
      rw [fillSlot_foldl_getD _ _ _ _ (fun i hi => by
        have : i < m := List.mem_range.mp hi
        omega)]
      exact replicate_getD _ _ (by omega)
    have hlen : ((List.range m).foldl (fillSlot command)
        (List.replicate (m / 2 + 1) 0)).length = m / 2 + 1 := by
      rw [fillSlot_foldl_length, List.length_replicate]
    rw [fillSlot, hm2, hdiv, hpre, List.getD_eq_getElem?_getD,
      List.getElem?_set_self (by rw [hlen]; omega)]
    simp [hm]

/-- C4: for every command length L in [1,10] (in fact for every L at least 1)
convertToPio produces exactly L/2 + 1 output slots, the two bits of slot L/2
at bit position 2*(8*(L%2)) hold the end marker value 0b11, and a zero-length
command produces an empty output with resultLen 0. -/
theorem c4_encode_slots (command : List Nat) (L : Nat) (hlen : command.length = L)
    (h1 : 1 ≤ L) (h10 : L ≤ 10) :
    (convertToPio command).2 = L / 2 + 1 ∧
    (convertToPio command).1.length = L / 2 + 1 ∧
    ((convertToPio command).1.getD (L / 2) 0) / 2 ^ (2 * (8 * (L % 2))) % 4 = 3 ∧
    convertToPio [] = ([], 0) := by
  subst hlen
  have h0 : ¬ command.length = 0 := by omega
  refine ⟨?_, ?_, ?_, rfl⟩
  · simp [convertToPio, h0]
  · simp only [convertToPio, if_neg h0, List.length_set]
    rw [fillSlot_foldl_length, List.length_replicate]
  · simp only [convertToPio, if_neg h0]
    have hlt : command.length / 2 <
        ((List.range command.length).foldl (fillSlot command)
          (List.replicate (command.length / 2 + 1) 0)).length := by
      rw [fillSlot_foldl_length, List.length_replicate]; omega
    rw [List.getD_eq_getElem?_getD, List.getElem?_set_self hlt, Option.getD_some,
      filled_getD_last _ h0]
    rcases Nat.even_or_odd command.length with he | ho
    · have he2 : command.length % 2 = 0 := Nat.even_iff.mp he
      rw [if_neg (by omega), he2]
      norm_num
    · have ho2 : command.length % 2 = 1 := Nat.odd_iff.mp ho
      rw [if_pos ho2, ho2]
      have hb := byteSlots_zero_lt (command.getD (command.length - 1) 0)
      simp only [List.getD_eq_getElem?_getD] at hb ⊢
      norm_num
      omega

/-- Witness for c4_encode_slots at the 2-byte read command 0x04 0x07. -/
theorem c4_encode_slots_witness :
    (convertToPio [4, 7]).2 = 2 / 2 + 1 ∧
    (convertToPio [4, 7]).1.length = 2 / 2 + 1 ∧
    ((convertToPio [4, 7]).1.getD (2 / 2) 0) / 2 ^ (2 * (8 * (2 % 2))) % 4 = 3 ∧
    convertToPio [] = ([], 0) :=
  c4_encode_slots [4, 7] 2 rfl (by decide) (by decide)

/-! ## EepromProtocol: InitEeprom, ReadEepromData, WriteEepromData
from src/src/joybus.c.

The peripheral is modelled as a pure oracle: given the PIO words pushed for
the current command and the zero-based attempt number within the retry loop
of the current 8-byte unit, it answers `none` (GetInputWithTimeout elapses
and yields the sentinel 0xFFFFFFFF) or `some ws` (the first response word
followed by the words the subsequent blocking reads return). -/

/-- Peripheral response oracle. -/
def ChipResp : Type := List Nat → Nat → Option (List Nat)

/-- The oracle of a peripheral that never answers: every receive times out. -/
def constTimeout : ChipResp := fun _ _ => none

/-- The retry loop shared by ReadEepromData and WriteEepromData, indexed by
the remaining budget: the C counter retries starts at 0 and the loop body
aborts when retries > 10 holds after a receive, so the countdown starts at
11 = 10 - 0 + 1 and the abort fires exactly when it reaches 0.  Returns the
loop result (`none` = abort: the C sets gEepromSize = 0 and returns) paired
with the total number of transmissions of the command, counting the send
performed in the aborting iteration. -/
def recvRetryGo (resp : Nat → Option (List Nat)) (r : Nat) : Nat → Option (List Nat) × Nat
  | 0 => (none, r + 1)
  | countdown + 1 =>
    match resp r with
    | some ws => (some ws, r + 1)
    | none => recvRetryGo resp (r + 1) countdown

/-- The full retry loop: counter at 0, budget 11. -/
def recvRetry (resp : Nat → Option (List Nat)) : Option (List Nat) × Nat :=
  recvRetryGo resp 0 11

/-- State threaded through the 64-unit loops: the abort latch (the early
return of the C), the caller buffer, and the ghost trace of every
transmission performed on the bus (each element: the PIO words of one
send attempt). -/
structure BusState where
  aborted : Bool
  buf : List Nat
  sent : List (List Nat)
deriving Repr, DecidableEq

/-- The byte stores of one successful read unit:
buffer[unit*8 + i] = (uint8_t) response word i, for i = 0..7. -/
def storeBytes (buf : List Nat) (base : Nat) (ws : List Nat) : List Nat :=
  (List.range 8).foldl (fun b i => b.set (base + i) (ws.getD i 0 % 256)) buf

/-- One iteration of the ReadEepromData unit loop: build the 2-byte read
command 0x04, (uint8_t)(ReadIndex + offset), send it through the retry
loop, and on success store the 8 response bytes at buffer[unit*8..].
Once aborted, the remaining iterations do nothing (the C returns early). -/
def readStep (resp : ChipResp) (offset : Nat) (s : BusState) (unit : Nat) : BusState :=
  if s.aborted then s
  else
    let words := (convertToPio [0x04, (unit + offset) % 256]).1
    match recvRetry (resp words) with
    | (none, n) => ⟨true, s.buf, s.sent ++ List.replicate n words⟩
    | (some ws, n) => ⟨false, storeBytes s.buf (unit * 8) ws, s.sent ++ List.replicate n words⟩

/-- ReadEepromData from src/src/joybus.c.  Returns the new gEepromSize and
the final bus state.  A gEepromSize of 0 returns immediately; otherwise 64
read units run, and an exhausted retry loop forces gEepromSize to 0 and
returns early. -/
def ReadEepromData (resp : ChipResp) (gEepromSize offset : Nat) (buffer : List Nat) :
    Nat × BusState :=
  if gEepromSize = 0 then (gEepromSize, ⟨false, buffer, []⟩)
  else
    let s := (List.range 64).foldl (readStep resp offset) ⟨false, buffer, []⟩
    (if s.aborted then 0 else gEepromSize, s)

/-- The 10-byte probeResponse array built by the WriteEepromData unit loop:
0x05, (uint8_t)(WriteIndex + offset), then probeResponse[i+2] =
buffer[i + WriteIndex] for i = 0..7 (the C indexes the buffer by
i + WriteIndex, not i + WriteIndex*8). -/
def writeUnitCommand (offset : Nat) (buffer : List Nat) (unit : Nat) : List Nat :=
  0x05 :: (unit + offset) % 256 :: (List.range 8).map (fun i => buffer.getD (i + unit) 0 % 256)

/-- One iteration of the WriteEepromData unit loop.  The C hands convertToPio
the length 1, so only the first byte of probeResponse is encoded and
transmitted; the status response is read but affects only a settle delay. -/
def writeStep (resp : ChipResp) (offset : Nat) (buffer : List Nat) (s : BusState)
    (unit : Nat) : BusState :=
  if s.aborted then s
  else
    let words := (convertToPio ((writeUnitCommand offset buffer unit).take 1)).1
    match recvRetry (resp words) with
    | (none, n) => ⟨true, s.buf, s.sent ++ List.replicate n words⟩
    | (some _, n) => ⟨false, s.buf, s.sent ++ List.replicate n words⟩

/-- WriteEepromData from src/src/joybus.c.  Unlike ReadEepromData it has no
gEepromSize = 0 guard: the 64 write units always run.  Returns the new
gEepromSize and the final bus state (the caller buffer is never written). -/
def WriteEepromData (resp : ChipResp) (gEepromSize offset : Nat) (buffer : List Nat) :
    Nat × BusState :=
  let s := (List.range 64).foldl (writeStep resp offset buffer) ⟨false, buffer, []⟩
  (if s.aborted then 0 else gEepromSize, s)

/-- The response check of InitEeprom from src/src/joybus.c.  first is the
word GetInputWithTimeout yields for the info command (`none` = timeout, which
the C maps to the sentinel 0xFFFFFFFF); w1 and w2 are the two further words
read when the first word is zero.  The arguments readCount0 and gEepromSize0
are the prior values of the globals ReadCount and gEepromSize (both
initialized to 0 at program start); the result is their values after the
probe. -/
def InitEeprom (first : Option Nat) (w1 w2 : Nat) (readCount0 gEepromSize0 : Nat) :
    Nat × Nat :=
  let b0 := match first with
    | none => 0xFFFFFFFF
    | some w => w
  if b0 = 0 then
    if w1 = 0x80 then (64, 512)
    else if w1 = 0xC0 then (256, 512 * 4)
    else (0, 0)
  else (readCount0, gEepromSize0)

theorem recvRetryGo_timeout (resp : Nat → Option (List Nat)) (h : ∀ a, resp a = none) :
    ∀ (k r : Nat), recvRetryGo resp r k = (none, r + k + 1) := by
  intro k
  induction k with
  | zero => intro r; rfl
  | succ k ih =>
    intro r
    rw [recvRetryGo, h r, ih (r + 1)]
    simp only [Prod.mk.injEq]
    exact ⟨trivial, by omega⟩

theorem recvRetryGo_snd_pos (resp : Nat → Option (List Nat)) :
    ∀ (k r : Nat), 1 ≤ (recvRetryGo resp r k).2 := by
  intro k
  induction k with
  | zero => intro r; simp [recvRetryGo]
  | succ k ih =>
    intro r
    rw [recvRetryGo]
    cases resp r with
    | some ws => simp
    | none => exact ih (r + 1)

theorem readStep_foldl_aborted (resp : ChipResp) (offset : Nat) (l : List Nat)
    (s : BusState) (h : s.aborted = true) : l.foldl (readStep resp offset) s = s := by
  induction l with
  | nil => rfl
  | cons i t ih => rw [List.foldl_cons, readStep, if_pos h, ih]

theorem writeStep_foldl_aborted (resp : ChipResp) (offset : Nat) (buffer : List Nat)
    (l : List Nat) (s : BusState) (h : s.aborted = true) :
    l.foldl (writeStep resp offset buffer) s = s := by
  induction l with
  | nil => rfl
  | cons i t ih => rw [List.foldl_cons, writeStep, if_pos h, ih]

theorem writeStep_foldl_sent_le (resp : ChipResp) (offset : Nat) (buffer : List Nat)
    (l : List Nat) (s : BusState) :
    s.sent.length ≤ (l.foldl (writeStep resp offset buffer) s).sent.length := by
  induction l generalizing s with
  | nil => exact Nat.le_refl _
  | cons i t ih =>
    rw [List.foldl_cons]
    refine Nat.le_trans ?_ (ih (writeStep resp offset buffer s i))
    rw [writeStep]
    split
    · exact Nat.le_refl _
    · rcases hr : recvRetry (resp (convertToPio ((writeUnitCommand offset buffer i).take 1)).1)
        with ⟨o, n⟩
      cases o <;> simp [hr]

theorem range64_cons : List.range 64 = 0 :: List.map Nat.succ (List.range 63) := by
  rw [show (64 : Nat) = 63 + 1 from rfl, List.range_succ_eq_map]

theorem readStep_foldl_timeout (resp : ChipResp) (offset : Nat) (buffer : List Nat)
    (hresp : ∀ w r, resp w r = none) :
    (List.range 64).foldl (readStep resp offset) ⟨false, buffer, []⟩ =
      ⟨true, buffer, List.replicate 12 (convertToPio [0x04, (0 + offset) % 256]).1⟩ := by
  have hrr : ∀ w, recvRetry (resp w) = (none, 12) := by
    intro w
    rw [recvRetry, recvRetryGo_timeout (resp w) (hresp w)]
  rw [range64_cons, List.foldl_cons, readStep]
  simp only [Bool.false_eq_true, if_false, hrr]
  exact readStep_foldl_aborted _ _ _ _ rfl

theorem writeStep_foldl_timeout (resp : ChipResp) (offset : Nat) (buffer : List Nat)
    (hresp : ∀ w r, resp w r = none) :
    (List.range 64).foldl (writeStep resp offset buffer) ⟨false, buffer, []⟩ =
      ⟨true, buffer,
        List.replicate 12 (convertToPio ((writeUnitCommand offset buffer 0).take 1)).1⟩ := by
  have hrr : ∀ w, recvRetry (resp w) = (none, 12) := by
    intro w
    rw [recvRetry, recvRetryGo_timeout (resp w) (hresp w)]
  rw [range64_cons, List.foldl_cons, writeStep]
  simp only [Bool.false_eq_true, if_false, hrr]
  exact writeStep_foldl_aborted _ _ _ _ _ rfl

/-- C1 (amended): when the peripheral times out on every attempt, both
ReadEepromData and WriteEepromData abort inside the first 8-byte unit after
the 12th transmission (the initial attempt plus 11 retries: the counter
check retries > 10 first holds at 11), return early with the caller buffer
untouched, and force gEepromSize to 0. -/
theorem c1_retry_exhaustion (resp : ChipResp) (g offset : Nat) (buffer : List Nat)
    (hg : g ≠ 0) (hresp : ∀ w r, resp w r = none) :
    (ReadEepromData resp g offset buffer).1 = 0 ∧
    (ReadEepromData resp g offset buffer).2.buf = buffer ∧
    (ReadEepromData resp g offset buffer).2.sent.length = 12 ∧
    (WriteEepromData resp g offset buffer).1 = 0 ∧
    (WriteEepromData resp g offset buffer).2.sent.length = 12 := by
  simp [ReadEepromData, WriteEepromData, hg,
    readStep_foldl_timeout resp offset buffer hresp,
    writeStep_foldl_timeout resp offset buffer hresp]

/-- Witness for c1_retry_exhaustion at the never-answering peripheral. -/
theorem c1_retry_exhaustion_witness :
    (ReadEepromData constTimeout 512 0 []).1 = 0 ∧
    (ReadEepromData constTimeout 512 0 []).2.buf = [] ∧
    (ReadEepromData constTimeout 512 0 []).2.sent.length = 12 ∧
    (WriteEepromData constTimeout 512 0 []).1 = 0 ∧
    (WriteEepromData constTimeout 512 0 []).2.sent.length = 12 :=
  c1_retry_exhaustion constTimeout 512 0 [] (by decide) (fun _ _ => rfl)

set_option maxRecDepth 8192 in
set_option maxRecDepth 8192 in
/-- C1 counterexample: the claim says the operation stops after the 11th
attempt; with a peripheral that times out on every attempt, the very first
8-byte unit of a read is transmitted 12 times before the abort, not 11. -/
theorem c1_twelve_attempts_counterexample :
    (ReadEepromData constTimeout 512 0 []).2.sent.length = 12 ∧
    (12 : Nat) ≠ 11 := by
  constructor
  · simp [ReadEepromData, readStep_foldl_timeout constTimeout 0 [] (fun _ _ => rfl)]
  · decide

/-- C2 (amended): gEepromSize = 0 gates reads only.  ReadEepromData returns
at once, issuing no bus command and leaving the caller buffer untouched;
WriteEepromData has no such guard and transmits at least one command no
matter what gEepromSize holds, 0 included. -/
theorem c2_size_zero_gates_reads_only :
    (∀ (resp : ChipResp) (offset : Nat) (buffer : List Nat),
        ReadEepromData resp 0 offset buffer = (0, ⟨false, buffer, []⟩)) ∧
    (∀ (resp : ChipResp) (g offset : Nat) (buffer : List Nat),
        1 ≤ (WriteEepromData resp g offset buffer).2.sent.length) := by
  constructor
  · intro resp offset buffer
    rfl
  · intro resp g offset buffer
    simp only [WriteEepromData]
    rw [range64_cons, List.foldl_cons]
    refine Nat.le_trans ?_ (writeStep_foldl_sent_le resp offset buffer _ _)
    rw [writeStep]
    simp only [Bool.false_eq_true, if_false]
    rcases hr : recvRetry (resp (convertToPio ((writeUnitCommand offset buffer 0).take 1)).1)
      with ⟨o, n⟩
    have hn : 1 ≤ n := by
      have := recvRetryGo_snd_pos
        (resp (convertToPio ((writeUnitCommand offset buffer 0).take 1)).1) 11 0
      rw [recvRetry] at hr
      rw [hr] at this
      exact this
    cases o <;> simp [hr] <;> omega

set_option maxRecDepth 8192 in
set_option maxRecDepth 8192 in
/-- C2 counterexample: with gEepromSize = 0 a write still drives the bus:
the all-timeout peripheral sees 12 transmissions, not none. -/
theorem c2_write_not_gated_counterexample :
    (WriteEepromData constTimeout 0 0 []).2.sent.length = 12 ∧
    (12 : Nat) ≠ 0 := by
  constructor
  · simp [WriteEepromData, writeStep_foldl_timeout constTimeout 0 [] (fun _ _ => rfl)]
  · decide

/-- The buffer bytes 0, 1, 2, ..., 255, 0, 1, ... used to exhibit the write
command construction. -/
def c3TestBuffer : List Nat := (List.range 512).map (fun i => i % 256)

set_option maxRecDepth 4096 in
/-- C3: evaluation of the write command construction at offset 0, unit
index 1, buffer bytes 0,1,2,...: the array handed to convertToPio is cut to
length 1 (only the opcode is encoded, resultLen 1), and its data bytes come
from buffer[1..8] instead of the slice buffer[8..15] the spec (and the
command table comment in joybus.c: 0x05 transmits 10 bytes) requires. -/
theorem c3_write_command_bug :
    ((writeUnitCommand 0 c3TestBuffer 1).take 1).length = 1 ∧
    (convertToPio ((writeUnitCommand 0 c3TestBuffer 1).take 1)).2 = 1 ∧
    writeUnitCommand 0 c3TestBuffer 1 = [5, 1, 1, 2, 3, 4, 5, 6, 7, 8] ∧
    writeUnitCommand 0 c3TestBuffer 1 ≠ [5, 1, 8, 9, 10, 11, 12, 13, 14, 15] := by
  refine ⟨rfl, rfl, by decide, by decide⟩

/-- C5: after the bring-up probe (globals start at 0), gEepromSize is 512
exactly when the first response word is zero and the second is 0x80, 2048
exactly when the first is zero and the second is 0xC0, and 0 in every other
case, a receive timeout and a non-zero first word included. -/
theorem c5_probe_size (first : Option Nat) (w1 w2 : Nat) :
    (InitEeprom first w1 w2 0 0).2 =
      if first = some 0 ∧ w1 = 0x80 then 512
      else if first = some 0 ∧ w1 = 0xC0 then 2048
      else 0 := by
  cases first with
  | none => simp [InitEeprom]
  | some w =>
    by_cases hw : w = 0
    · subst hw
      by_cases h80 : w1 = 0x80
      · simp [InitEeprom, h80]
      · by_cases hc0 : w1 = 0xC0 <;> simp [InitEeprom, h80, hc0]
    · simp [InitEeprom, hw]

/-! ## VolumeLayout: geometry constants and FAT synthesis from the virtual
FAT16 disk construction source (tud_msc_read10_cb).  CLUSTER_UP_SHIFT is 0,
so VOLUME_SIZE = 256 MiB, CLUSTER_SIZE = 32768 and CLUSTER_SHIFT = 6. -/

def SECTOR_SIZE : Nat := 512

def VOLUME_SIZE : Nat := 256 * 1024 * 1024

def SECTOR_COUNT : Nat := VOLUME_SIZE / SECTOR_SIZE

def CLUSTER_SIZE : Nat := 32768

def CLUSTER_SHIFT : Nat := 6

def CLUSTER_COUNT : Nat := VOLUME_SIZE / CLUSTER_SIZE

def FAT_COUNT : Nat := 2

def SECTORS_PER_FAT : Nat := 2 * (CLUSTER_COUNT + SECTOR_SIZE - 1) / SECTOR_SIZE

def MAX_ROOT_DIRECTORY_ENTRIES : Nat := 512

def ROOT_DIRECTORY_SECTORS : Nat := MAX_ROOT_DIRECTORY_ENTRIES * 32 / SECTOR_SIZE

def DISK_BLOCK_NUM : Nat := SECTOR_COUNT

def EEPROM_SIZE : Nat := 32 * 1024

def FLASHRAM_SIZE : Nat := 128 * 1024

def N64ROM_SIZE : Nat := 64 * 1024 * 1024

def EEPROM_CLUSTER_START : Nat := 0

def FLASHRAM_CLUSTER_START : Nat := EEPROM_CLUSTER_START + EEPROM_SIZE / CLUSTER_SIZE

def N64ROM_CLUSTER_START : Nat := FLASHRAM_CLUSTER_START + FLASHRAM_SIZE / CLUSTER_SIZE

def Z64ROM_CLUSTER_START : Nat := N64ROM_CLUSTER_START + N64ROM_SIZE / CLUSTER_SIZE

def FLASHRAMFLIP_CLUSTER_START : Nat := Z64ROM_CLUSTER_START + N64ROM_SIZE / CLUSTER_SIZE

def EEPROMFLIP_CLUSTER_START : Nat := FLASHRAMFLIP_CLUSTER_START + FLASHRAM_SIZE / CLUSTER_SIZE

def CARTTEST_CLUSTER_START : Nat := EEPROMFLIP_CLUSTER_START + EEPROM_SIZE / CLUSTER_SIZE

/-- One 16-bit entry of the FAT sector with (mirror-reduced) index f, as the
FAT branch of tud_msc_read10_cb writes it.  prior is the 16-bit word already
in the host buffer at that entry position: the branch for f = 16 fills only
the first 13 entries and never clears the rest of the buffer, so for f = 16
and x at least 13 the prior contents leak through.  All other branches
overwrite or memset every entry. -/
def fatEntry (f x : Nat) (prior : Nat) : Nat :=
  if f = 0 then
    if x = 0 then 0xfff8
    else if x = 1 then 0xffff
    else if x = 2 then 0xffff
    else if x = 3 then 0x0004
    else if x = 4 then 0x0005
    else if x = 5 then 0x0006
    else if x = 6 then 0xffff
    else x + 1
  else if f < 8 then f * 256 + x + 1
  else if f = 8 then
    if x < 6 then f * 256 + x + 1
    else if x = 6 then 0xffff
    else f * 256 + x + 1
  else if f < 16 then f * 256 + x + 1
  else if f = 16 then
    if x < 6 then f * 256 + x + 1
    else if x = 6 then 0xffff
    else if x = 7 then 0x0008 + f * 256
    else if x = 8 then 0x0009 + f * 256
    else if x = 9 then 0x000A + f * 256
    else if x = 10 then 0xffff
    else if x = 11 then 0xffff
    else if x = 12 then 0xffff
    else prior
  else 0

/-- The 256 16-bit entries of FAT sector f as tud_msc_read10_cb produces
them over a host buffer whose prior 16-bit words are prior. -/
def fatSector (f : Nat) (prior : List Nat) : List Nat :=
  (List.range 256).map (fun x => fatEntry f x (prior.getD x 0))

/-- The FAT entry of cluster c: entry c % 256 of FAT sector c / 256. -/
def fatLink (prior : List Nat) (c : Nat) : Nat :=
  (fatSector (c / 256) prior).getD (c % 256) 0

theorem fatSector_getD (f x : Nat) (p : List Nat) (hx : x < 256) :
    (fatSector f p).getD x 0 = fatEntry f x (p.getD x 0) := by
  rw [fatSector, List.getD_eq_getElem?_getD, List.getElem?_map,
    List.getElem?_range hx]
  rfl

theorem fatEntry_gt16 (f x p : Nat) (h : 17 ≤ f) : fatEntry f x p = 0 := by
  rw [fatEntry.eq_def, if_neg (by omega : ¬ f = 0), if_neg (by omega : ¬ f < 8),
    if_neg (by omega : ¬ f = 8), if_neg (by omega : ¬ f < 16), if_neg (by omega : ¬ f = 16)]

theorem fatEntry_f0_high (x p : Nat) (h : 7 ≤ x) : fatEntry 0 x p = x + 1 := by
  rw [fatEntry.eq_def, if_pos (rfl : (0 : Nat) = 0), if_neg (by omega : ¬ x = 0),
    if_neg (by omega : ¬ x = 1), if_neg (by omega : ¬ x = 2), if_neg (by omega : ¬ x = 3),
    if_neg (by omega : ¬ x = 4), if_neg (by omega : ¬ x = 5), if_neg (by omega : ¬ x = 6)]

theorem fatEntry_lin (f x p : Nat) (h0 : ¬ f = 0) (h8 : f < 8) :
    fatEntry f x p = f * 256 + x + 1 := by
  rw [fatEntry.eq_def, if_neg h0, if_pos h8]

theorem fatEntry_f8 (x p : Nat) (h6 : ¬ x = 6) : fatEntry 8 x p = 8 * 256 + x + 1 := by
  rw [fatEntry.eq_def, if_neg (by omega : ¬ (8 : Nat) = 0), if_neg (by omega : ¬ (8 : Nat) < 8),
    if_pos (rfl : (8 : Nat) = 8)]
  rcases Nat.lt_or_ge x 6 with h | h
  · rw [if_pos h]
  · rw [if_neg (by omega : ¬ x < 6), if_neg h6]

theorem fatEntry_lin2 (f x p : Nat) (h8 : 8 < f) (h16 : f < 16) :
    fatEntry f x p = f * 256 + x + 1 := by
  rw [fatEntry.eq_def, if_neg (by omega : ¬ f = 0), if_neg (by omega : ¬ f < 8),
    if_neg (by omega : ¬ f = 8), if_pos h16]

theorem fatEntry_f16_low (x p : Nat) (h : x < 6) : fatEntry 16 x p = 16 * 256 + x + 1 := by
  rw [fatEntry.eq_def, if_neg (by omega : ¬ (16 : Nat) = 0),
    if_neg (by omega : ¬ (16 : Nat) < 8), if_neg (by omega : ¬ (16 : Nat) = 8),
    if_neg (by omega : ¬ (16 : Nat) < 16), if_pos (rfl : (16 : Nat) = 16), if_pos h]

theorem fatEntry_f16_high (x p : Nat) (h : 13 ≤ x) : fatEntry 16 x p = p := by
  rw [fatEntry.eq_def, if_neg (by omega : ¬ (16 : Nat) = 0),
    if_neg (by omega : ¬ (16 : Nat) < 8), if_neg (by omega : ¬ (16 : Nat) = 8),
    if_neg (by omega : ¬ (16 : Nat) < 16), if_pos (rfl : (16 : Nat) = 16),
    if_neg (by omega : ¬ x < 6), if_neg (by omega : ¬ x = 6), if_neg (by omega : ¬ x = 7),
    if_neg (by omega : ¬ x = 8), if_neg (by omega : ¬ x = 9), if_neg (by omega : ¬ x = 10),
    if_neg (by omega : ¬ x = 11), if_neg (by omega : ¬ x = 12)]

/-- Prior-buffer independence of a FAT entry everywhere outside the
unwritten tail of sector 16. -/
theorem fatEntry_prior_indep (f x p q : Nat) (h : ¬ f = 16 ∨ x < 13) :
    fatEntry f x p = fatEntry f x q := by
  rcases Nat.lt_or_ge f 17 with hf | hf
  · by_cases hf0 : f = 0
    · subst hf0
      rcases Nat.lt_or_ge x 7 with hx | hx
      · interval_cases x <;> rfl
      · rw [fatEntry_f0_high x p hx, fatEntry_f0_high x q hx]
    · by_cases hf8lt : f < 8
      · rw [fatEntry_lin f x p hf0 hf8lt, fatEntry_lin f x q hf0 hf8lt]
      · by_cases hf8 : f = 8
        · subst hf8
          by_cases hx6 : x = 6
          · subst hx6; rfl
          · rw [fatEntry_f8 x p hx6, fatEntry_f8 x q hx6]
        · by_cases hf16lt : f < 16
          · rw [fatEntry_lin2 f x p (by omega) hf16lt, fatEntry_lin2 f x q (by omega) hf16lt]
          · have hf16 : f = 16 := by omega
            subst hf16
            have hx13 : x < 13 := by
              rcases h with h | h
              · exact absurd rfl h
              · exact h
            rcases Nat.lt_or_ge x 6 with hx | hx
            · rw [fatEntry_f16_low x p hx, fatEntry_f16_low x q hx]
            · interval_cases x <;> rfl
  · rw [fatEntry_gt16 f x p hf, fatEntry_gt16 f x q hf]

/-- C6 (amended): the synthesized FAT links every interior cluster of each
of the seven files to its successor and terminates the last cluster of each
file with 0xFFFF (ROM.EEP cluster 2; ROM.FLA 3..6; ROM.N64 7..2054;
ROMF.Z64 2055..4102; flipped save 4103..4106; flipped EEPROM 4107;
CARTTEST.TXT 4108), but the FAT entries beyond the last allocated file are
not 0xFFFF filler: sectors 17..32 are zero-filled, and entries 13..255 of
sector 16 pass the prior buffer contents through. -/
theorem c6_fat_chain_amended :
    (∀ (prior : List Nat) (c : Nat), 2 ≤ c → c ≤ 4108 →
        fatLink prior c =
          if c = 2 ∨ c = 6 ∨ c = 2054 ∨ c = 4102 ∨ c = 4106 ∨ c = 4107 ∨ c = 4108
          then 0xffff else c + 1) ∧
    (∀ (prior : List Nat) (f x : Nat), 17 ≤ f → f ≤ 32 → x < 256 →
        (fatSector f prior).getD x 0 = 0) ∧
    (∀ (prior : List Nat) (x : Nat), 13 ≤ x → x < 256 →
        (fatSector 16 prior).getD x 0 = prior.getD x 0) := by
  refine ⟨?_, ?_, ?_⟩
  · intro prior c h2 h3
    have hx : c % 256 < 256 := Nat.mod_lt _ (by norm_num)
    rw [fatLink, fatSector_getD _ _ _ hx]
    obtain ⟨f, x, hxlt, rfl⟩ : ∃ f x, x < 256 ∧ c = 256 * f + x :=
      ⟨c / 256, c % 256, hx, by omega⟩
    have hd : (256 * f + x) / 256 = f := by omega
    have hm : (256 * f + x) % 256 = x := by omega
    rw [hd, hm]
    generalize prior.getD x 0 = p
    by_cases hf0 : f = 0
    · subst hf0
      rcases Nat.lt_or_ge x 7 with hx7 | hx7
      · have hx2 : 2 ≤ x := by omega
        interval_cases x
        · rw [show fatEntry 0 2 p = 0xffff from rfl, if_pos (by omega)]
        · rw [show fatEntry 0 3 p = 4 from rfl, if_neg (by omega)]
        · rw [show fatEntry 0 4 p = 5 from rfl, if_neg (by omega)]
        · rw [show fatEntry 0 5 p = 6 from rfl, if_neg (by omega)]
        · rw [show fatEntry 0 6 p = 0xffff from rfl, if_pos (by omega)]
      · rw [fatEntry_f0_high x p hx7, if_neg (by omega)]
        omega
    · by_cases hf8lt : f < 8
      · rw [fatEntry_lin f x p hf0 hf8lt, if_neg (by omega)]
        omega
      · by_cases hf8 : f = 8
        · subst hf8
          by_cases hx6 : x = 6
          · subst hx6
            rw [show fatEntry 8 6 p = 0xffff from rfl, if_pos (by omega)]
          · rw [fatEntry_f8 x p hx6, if_neg (by omega)]
        · by_cases hf16lt : f < 16
          · rw [fatEntry_lin2 f x p (by omega) hf16lt, if_neg (by omega)]
            omega
          · have hf16 : f = 16 := by omega
            subst hf16
            rcases Nat.lt_or_ge x 6 with hx6 | hx6
            · rw [fatEntry_f16_low x p hx6, if_neg (by omega)]
            · have hx12 : x ≤ 12 := by omega
              interval_cases x
              · rw [show fatEntry 16 6 p = 0xffff from rfl, if_pos (by omega)]
              · rw [show fatEntry 16 7 p = 0x0008 + 16 * 256 from rfl, if_neg (by omega)]
              · rw [show fatEntry 16 8 p = 0x0009 + 16 * 256 from rfl, if_neg (by omega)]
              · rw [show fatEntry 16 9 p = 0x000A + 16 * 256 from rfl, if_neg (by omega)]
              · rw [show fatEntry 16 10 p = 0xffff from rfl, if_pos (by omega)]
              · rw [show fatEntry 16 11 p = 0xffff from rfl, if_pos (by omega)]
              · rw [show fatEntry 16 12 p = 0xffff from rfl, if_pos (by omega)]
  · intro prior f x h17 h32 hx
    rw [fatSector_getD _ _ _ hx, fatEntry_gt16 _ _ _ h17]
  · intro prior x h13 hx
    rw [fatSector_getD _ _ _ hx, fatEntry_f16_high _ _ h13]

/-- Witness for c6_fat_chain_amended at clusters 3 (interior link of
ROM.FLA), FAT sector 20 entry 5 (zero filler) and sector 16 entry 13
(prior pass-through). -/
theorem c6_fat_chain_amended_witness :
    (fatLink [] 3 =
      if (3 : Nat) = 2 ∨ (3 : Nat) = 6 ∨ (3 : Nat) = 2054 ∨ (3 : Nat) = 4102 ∨
         (3 : Nat) = 4106 ∨ (3 : Nat) = 4107 ∨ (3 : Nat) = 4108
      then 0xffff else 3 + 1) ∧
    (fatSector 20 []).getD 5 0 = 0 ∧
    (fatSector 16 []).getD 13 0 = List.getD [] 13 0 :=
  ⟨c6_fat_chain_amended.1 [] 3 (by decide) (by decide),
   c6_fat_chain_amended.2.1 [] 20 5 (by decide) (by decide) (by decide),
   c6_fat_chain_amended.2.2 [] 13 (by decide) (by decide)⟩

/-- C6 counterexample: the claim says every FAT entry beyond the last
allocated file is 0xFFFF; entry 0 of FAT sector 17 (cluster 4352, beyond
the last file cluster 4108) is 0, not 0xFFFF. -/
theorem c6_filler_counterexample :
    (fatSector 17 (List.replicate 256 0)).getD 0 0 = 0 ∧ (0 : Nat) ≠ 0xffff := by
  exact ⟨rfl, by decide⟩

/-- C7 (amended): FAT sector synthesis is independent of the prior buffer
contents for every sector index other than 16, and for the first 13 entries
of sector 16; entries 13..255 of sector 16 are passed through from the
prior buffer (so that one sector is not deterministic in the claimed
sense). -/
theorem c7_fat_determinism_amended :
    (∀ (p q : List Nat) (f : Nat), f ≤ 32 → f ≠ 16 → fatSector f p = fatSector f q) ∧
    (∀ (p q : List Nat) (x : Nat), x < 13 →
        (fatSector 16 p).getD x 0 = (fatSector 16 q).getD x 0) := by
  constructor
  · intro p q f h32 h16
    rw [fatSector, fatSector]
    refine List.map_congr_left (fun x hx => ?_)
    exact fatEntry_prior_indep f x _ _ (Or.inl h16)
  · intro p q x h13
    rw [fatSector_getD _ _ _ (by omega), fatSector_getD _ _ _ (by omega)]
    exact fatEntry_prior_indep 16 x _ _ (Or.inr h13)

/-- Witness for c7_fat_determinism_amended at sector 0 and at entry 2 of
sector 16. -/
theorem c7_fat_determinism_amended_witness :
    fatSector 0 [] = fatSector 0 [9] ∧
    (fatSector 16 []).getD 2 0 = (fatSector 16 [5]).getD 2 0 :=
  ⟨c7_fat_determinism_amended.1 [] [9] 0 (by decide) (by decide),
   c7_fat_determinism_amended.2 [] [5] 2 (by decide)⟩

set_option maxRecDepth 2048 in
/-- C7 counterexample: FAT sector 16 read into a buffer previously holding
zeros differs from the same FAT sector read into a buffer previously
holding sevens: entry 13 leaks the prior word, so identical inputs at the
dispatcher (the sector index) do not yield byte-identical output. -/
theorem c7_sector16_prior_leak_counterexample :
    (fatSector 16 (List.replicate 256 0)).getD 13 0 = 0 ∧
    (fatSector 16 (List.replicate 256 7)).getD 13 0 = 7 ∧
    fatSector 16 (List.replicate 256 0) ≠ fatSector 16 (List.replicate 256 7) := by
  refine ⟨rfl, rfl, by decide⟩

/-! ## Root directory synthesis (sector 0 of the root directory region) -/

def ATTR_READONLY : Nat := 0x01

def ATTR_VOLUME_LABEL : Nat := 0x08

def ATTR_ARCHIVE : Nat := 0x20

/-- A short 8.3 directory entry: name (11 bytes), attributes, starting
cluster and size, as filled in by init_dir_entry. -/
structure DirEntry where
  name : String
  attr : Nat
  cluster : Nat
  size : Nat
deriving Repr, DecidableEq

/-- One 32-byte slot of the root directory: the volume label entry, a
long-file-name record, or a short entry. -/
inductive DirSlot where
  | label (name : String) (attr : Nat)
  | lfn (uniname : String)
  | entry (e : DirEntry)
deriving Repr, DecidableEq

/-- init_dir_entry writes a long-file-name record followed by the short
entry. -/
def init_dir_entry (fn uniname : String) (cluster size attr : Nat) : List DirSlot :=
  [DirSlot.lfn uniname, DirSlot.entry ⟨fn, attr, cluster, size⟩]

/-- Sector 0 of the root directory as the root-directory branch of
tud_msc_read10_cb emits it, with the cluster_offset arithmetic of the
source (sizes in the increments are the local variable size, the entry size
fields are the detected values). -/
def rootDirSector0 (gEepromSize gRomSize : Nat) (gSRAMPresent gFramPresent : Bool) :
    List DirSlot :=
  let cluster_offset0 := 2
  let size0 := 2 * 1024
  let cluster_offset1 := cluster_offset0 + size0 / CLUSTER_SIZE + 1
  let size1 := 128 * 1024
  let cluster_offset2 := cluster_offset1 + size1 / CLUSTER_SIZE
  let size2 := 64 * 1024 * 1024
  let cluster_offset3 := cluster_offset2 + size2 / CLUSTER_SIZE
  let size3 := 64 * 1024 * 1024
  let cluster_offset4 := cluster_offset3 + size3 / CLUSTER_SIZE
  let size4 := 128 * 1024
  let cluster_offset5 := cluster_offset4 + size4 / CLUSTER_SIZE
  let size5 := 2 * 1024
  let cluster_offset6 := cluster_offset5 + size5 / CLUSTER_SIZE + 1
  [DirSlot.label "DreamDump64" (ATTR_VOLUME_LABEL + ATTR_ARCHIVE)]
  ++ init_dir_entry "ROM     EEP" "rom.eep" cluster_offset0 gEepromSize 0
  ++ (if gSRAMPresent || gFramPresent then
        init_dir_entry "ROM     FLA" "rom.fla" cluster_offset1 size1 0
      else
        init_dir_entry "ROM     FLA" "rom.fla" cluster_offset1 0 0)
  ++ init_dir_entry "ROM     N64" "rom.n64" cluster_offset2 gRomSize ATTR_READONLY
  ++ init_dir_entry "ROMF    Z64" "rom.z64" cluster_offset3 gRomSize ATTR_READONLY
  ++ (if gSRAMPresent || gFramPresent then
        (if gFramPresent then
          init_dir_entry "ROMF    FLA" "ROMF.flash" cluster_offset4 size4 0
        else
          init_dir_entry "ROMF    RAM" "ROMF.ram" cluster_offset4 size4 0)
      else
        init_dir_entry "ROMF    FLA" "ROMF.flash" cluster_offset4 0 0)
  ++ (if gEepromSize ≠ 0 then
        init_dir_entry "ROMF    EEP" "ROMF.eeprom" cluster_offset5 gEepromSize 0
      else [])
  ++ init_dir_entry "CARTTESTTXT" "carttest.txt" cluster_offset6 size5 ATTR_READONLY

/-- The first short entry with the given 8.3 name. -/
def findEntry (slots : List DirSlot) (n : String) : Option DirEntry :=
  slots.findSome? (fun s =>
    match s with
    | DirSlot.entry e => if e.name = n then some e else none
    | _ => none)

/-- C8: in root directory sector 0 the ROM.EEP entry size equals the
detected gEepromSize, the ROM.FLA entry size is 128 KiB when a save chip
(SRAM or FlashRAM) was detected and 0 otherwise, and a ROMF.EEP entry is
emitted exactly when gEepromSize is non-zero. -/
theorem c8_root_directory (gEep gRom : Nat) (sram fram : Bool) :
    findEntry (rootDirSector0 gEep gRom sram fram) "ROM     EEP"
      = some ⟨"ROM     EEP", 0, 2, gEep⟩ ∧
    findEntry (rootDirSector0 gEep gRom sram fram) "ROM     FLA"
      = some ⟨"ROM     FLA", 0, 3, if sram || fram then 131072 else 0⟩ ∧
    ((findEntry (rootDirSector0 gEep gRom sram fram) "ROMF    EEP").isSome ↔ gEep ≠ 0) := by
  by_cases hE : gEep = 0 <;> cases sram <;> cases fram <;>
    simp [rootDirSector0, findEntry, init_dir_entry, hE, CLUSTER_SIZE,
      ATTR_READONLY, ATTR_VOLUME_LABEL, ATTR_ARCHIVE, List.findSome?_cons]

/-! ## BlockDispatcher return values (tud_msc_read10_cb, tud_msc_write10_cb) -/

/-- The cluster-dispatch block of tud_msc_write10_cb (the innermost braces
of the source): CARTTEST is not writable (512), the EEPROM and save
regions perform the hardware write and fall through to return bufsize, the
ROM regions are read only (512), and the final fall-through returns
bufsize. -/
def writeClusterRet (cluster bufsize : Nat) : Int :=
  if cluster = CARTTEST_CLUSTER_START then 512
  else if cluster = EEPROMFLIP_CLUSTER_START then (bufsize : Int)
  else if FLASHRAMFLIP_CLUSTER_START ≤ cluster ∧
          cluster < FLASHRAMFLIP_CLUSTER_START + 4 then (bufsize : Int)
  else if Z64ROM_CLUSTER_START ≤ cluster then 512
  else if N64ROM_CLUSTER_START ≤ cluster then 512
  else if FLASHRAM_CLUSTER_START ≤ cluster ∧
          cluster < FLASHRAM_CLUSTER_START + 4 then (bufsize : Int)
  else if cluster = EEPROM_CLUSTER_START then (bufsize : Int)
  else (bufsize : Int)

/-- The value tud_msc_write10_cb returns for a write of bufsize bytes at
sector lba, following the branch structure of the source: -1 for lba at or
beyond DISK_BLOCK_NUM, 512 for every metadata or read-only region, and the
fall-through return bufsize after a hardware write.  The Int cast of
bufsize models the C int32_t cast for the realistic bufsize range below
2^31. -/
def tud_msc_write10_ret (lba bufsize : Nat) : Int :=
  if lba ≥ DISK_BLOCK_NUM then -1
  else if lba = 0 then 512
  else if lba - 1 = 0 then 512
  else if lba - 2 < SECTORS_PER_FAT * FAT_COUNT then 512
  else if lba - 2 - SECTORS_PER_FAT * FAT_COUNT < ROOT_DIRECTORY_SECTORS then 512
  else
    writeClusterRet
      ((lba - 2 - SECTORS_PER_FAT * FAT_COUNT - ROOT_DIRECTORY_SECTORS) >>> CLUSTER_SHIFT)
      bufsize

/-- The value tud_msc_read10_cb returns: every return statement of the read
callback is `return 512`, for every lba without exception. -/
def tud_msc_read10_ret (lba : Nat) : Int := 512

/-- C9 counterexample: a write at lba = DISK_BLOCK_NUM (the first
out-of-range sector) returns -1, a hard I/O failure, contradicting the
claim that the write path never returns a hard failure for an out-of-range
sector. -/
theorem c9_write_out_of_range_counterexample :
    tud_msc_write10_ret DISK_BLOCK_NUM 512 = -1 ∧ (-1 : Int) < 0 := by
  constructor
  · rw [tud_msc_write10_ret, if_pos (Nat.le_refl _)]
  · decide

/-- C9 (amended): for every sector below the device capacity
(DISK_BLOCK_NUM = 524288) the write path reports success (512 or the
requested bufsize, never a negative status) and discards unsupported
writes, and the read path returns 512 for every lba whatsoever; but a write
at or beyond the capacity returns the hard failure -1. -/
theorem c9_no_hard_failure_in_range :
    (∀ lba bufsize : Nat, lba < DISK_BLOCK_NUM →
        tud_msc_write10_ret lba bufsize = 512 ∨
        tud_msc_write10_ret lba bufsize = (bufsize : Int)) ∧
    (∀ lba bufsize : Nat, DISK_BLOCK_NUM ≤ lba →
        tud_msc_write10_ret lba bufsize = -1) ∧
    (∀ lba : Nat, tud_msc_read10_ret lba = 512) := by
  have hcluster : ∀ cluster bufsize : Nat,
      writeClusterRet cluster bufsize = 512 ∨
      writeClusterRet cluster bufsize = (bufsize : Int) := by
    intro cluster bufsize
    rw [writeClusterRet.eq_def]
    by_cases h1 : cluster = CARTTEST_CLUSTER_START
    · rw [if_pos h1]; exact Or.inl rfl
    rw [if_neg h1]
    by_cases h2 : cluster = EEPROMFLIP_CLUSTER_START
    · rw [if_pos h2]; exact Or.inr rfl
    rw [if_neg h2]
    by_cases h3 : FLASHRAMFLIP_CLUSTER_START ≤ cluster ∧
        cluster < FLASHRAMFLIP_CLUSTER_START + 4
    · rw [if_pos h3]; exact Or.inr rfl
    rw [if_neg h3]
    by_cases h4 : Z64ROM_CLUSTER_START ≤ cluster
    · rw [if_pos h4]; exact Or.inl rfl
    rw [if_neg h4]
    by_cases h5 : N64ROM_CLUSTER_START ≤ cluster
    · rw [if_pos h5]; exact Or.inl rfl
    rw [if_neg h5]
    by_cases h6 : FLASHRAM_CLUSTER_START ≤ cluster ∧ cluster < FLASHRAM_CLUSTER_START + 4
    · rw [if_pos h6]; exact Or.inr rfl
    rw [if_neg h6]
    by_cases h7 : cluster = EEPROM_CLUSTER_START
    · rw [if_pos h7]; exact Or.inr rfl
    rw [if_neg h7]
    exact Or.inr rfl
  refine ⟨?_, ?_, fun _ => rfl⟩
  · intro lba bufsize hlba
    rw [tud_msc_write10_ret.eq_def, if_neg (by omega)]
    by_cases h1 : lba = 0
    · rw [if_pos h1]; exact Or.inl rfl
    rw [if_neg h1]
    by_cases h2 : lba - 1 = 0
    · rw [if_pos h2]; exact Or.inl rfl
    rw [if_neg h2]
    by_cases h3 : lba - 2 < SECTORS_PER_FAT * FAT_COUNT
    · rw [if_pos h3]; exact Or.inl rfl
    rw [if_neg h3]
    by_cases h4 : lba - 2 - SECTORS_PER_FAT * FAT_COUNT < ROOT_DIRECTORY_SECTORS
    · rw [if_pos h4]; exact Or.inl rfl
    rw [if_neg h4]
    exact hcluster _ _
  · intro lba bufsize hlba
    rw [tud_msc_write10_ret.eq_def, if_pos hlba]

/-- Witness for c9_no_hard_failure_in_range at lba 0 (in range) and at lba
DISK_BLOCK_NUM (out of range). -/
theorem c9_no_hard_failure_in_range_witness :
    (tud_msc_write10_ret 0 512 = 512 ∨ tud_msc_write10_ret 0 512 = ((512 : Nat) : Int)) ∧
    tud_msc_write10_ret DISK_BLOCK_NUM 7 = -1 ∧
    tud_msc_read10_ret 3 = 512 :=
  ⟨c9_no_hard_failure_in_range.1 0 512 (by decide),
   c9_no_hard_failure_in_range.2.1 DISK_BLOCK_NUM 7 (Nat.le_refl _),
   c9_no_hard_failure_in_range.2.2 3⟩

/-! ## C10: the EEPROM read dispatch, native versus flipped region -/

/-- The uint32 address the EEPROM-flipped read branch computes for sector
clusterOffset inside the cluster:
(cluster - EEPROMFLIP_CLUSTER_START) * CLUSTER_SIZE + clusterOffset * SECTOR_SIZE
with cluster = EEPROMFLIP_CLUSTER_START, then divided by 64 for the
ReadEepromData offset argument. -/
def eepromFlipReadOffset (clusterOffset : Nat) : Nat :=
  (((EEPROMFLIP_CLUSTER_START + 2 ^ 32 - EEPROMFLIP_CLUSTER_START) % 2 ^ 32 * CLUSTER_SIZE)
      % 2 ^ 32 + clusterOffset * SECTOR_SIZE) % 2 ^ 32 / 64

/-- The uint32 address the native EEPROM read branch computes: the source
subtracts FLASHRAM_CLUSTER_START (not EEPROM_CLUSTER_START) from
cluster = EEPROM_CLUSTER_START = 0, so the uint32 subtraction wraps to
0xFFFFFFFF and the multiplication by CLUSTER_SIZE wraps to 0xFFFF8000. -/
def eepromNativeReadOffset (clusterOffset : Nat) : Nat :=
  (((EEPROM_CLUSTER_START + 2 ^ 32 - FLASHRAM_CLUSTER_START) % 2 ^ 32 * CLUSTER_SIZE)
      % 2 ^ 32 + clusterOffset * SECTOR_SIZE) % 2 ^ 32 / 64

theorem readStep_congr_mod256 (resp : ChipResp) (o1 o2 : Nat)
    (h : o1 % 256 = o2 % 256) : readStep resp o1 = readStep resp o2 := by
  funext s unit
  rw [readStep, readStep, show (unit + o1) % 256 = (unit + o2) % 256 from by omega]

/-- C10: a read dispatched to the flipped EEPROM region and a read of the
corresponding sector of the native EEPROM region issue identical command
sequences on the bus and produce identical buffers and identical
gEepromSize, for every peripheral behavior (identical chip responses): the
two computed offsets agree modulo 256 and ReadEepromData only uses the
offset through the 8-bit block index (uint8_t)(ReadIndex + offset), so no
transform distinguishes the two paths. -/
theorem c10_flipped_native_same_read (resp : ChipResp) (g : Nat) (buffer : List Nat)
    (co : Nat) (hco : co < 64) :
    ReadEepromData resp g (eepromNativeReadOffset co) buffer
      = ReadEepromData resp g (eepromFlipReadOffset co) buffer := by
  have hmod : eepromNativeReadOffset co % 256 = eepromFlipReadOffset co % 256 := by
    rw [eepromNativeReadOffset, eepromFlipReadOffset]
    simp only [EEPROM_CLUSTER_START, FLASHRAM_CLUSTER_START, EEPROMFLIP_CLUSTER_START,
      FLASHRAMFLIP_CLUSTER_START, Z64ROM_CLUSTER_START, N64ROM_CLUSTER_START,
      EEPROM_SIZE, FLASHRAM_SIZE, N64ROM_SIZE, CLUSTER_SIZE, SECTOR_SIZE]
    omega
  rw [ReadEepromData, ReadEepromData, readStep_congr_mod256 resp _ _ hmod]

/-- Witness for c10_flipped_native_same_read at sector offset 0 of the
region with the all-timeout peripheral. -/
theorem c10_flipped_native_same_read_witness :
    ReadEepromData constTimeout 512 (eepromNativeReadOffset 0) []
      = ReadEepromData constTimeout 512 (eepromFlipReadOffset 0) [] :=
  c10_flipped_native_same_read constTimeout 512 [] 0 (by decide)

end DrmDmp64
